import Mathlib

/-!
Shallow embedding of the card-generation and rate-limiting services of the
`mergebins` web application backend
(`src/webapp/backend/app/services/card_generator.py` and
`src/webapp/backend/app/services/rate_limiter.py`), together with proofs of
the specification claims about them.

Conventions of the embedding:
* Python integers are modelled as `Int` (or `Nat` where the source value is
  provably non-negative), strings as `String`.
* Randomness is modelled by threading an explicit stream of draws
  (`List Nat`); each call to a `random.*` primitive consumes one draw and
  selects an element of the candidate set determined by the draw.
* Fallible code is modelled in `Except PyErr`.  A Python comprehension whose
  body mentions a free variable is modelled by evaluating that variable with
  `evalName` in the environment of the enclosing scope; a variable that is
  not bound there yields `PyErr.nameError`, exactly as CPython raises
  `NameError` when the comprehension body is first executed.
* Wall-clock time is modelled as an integer number of seconds (rate limiter)
  or days (expiry generation); `datetime.now()` / `time.time()` become an
  explicit `now` parameter.
-/

namespace CardGen

/-- Python runtime errors that the embedded code can raise. -/
inductive PyErr where
  | nameError (x : String)
  | valueError (msg : String)
  deriving Repr, DecidableEq

/-- Evaluation of a Python name in a scope, CPython style: an unbound name
raises `NameError`. -/
def evalName (env : List (String × Nat)) (x : String) : Except PyErr Nat :=
  match env.lookup x with
  | some v => .ok v
  | none => .error (.nameError x)

/-- Whether `p` is an initial segment of `l` (helper for the substring
test). -/
def isInitSeg : List Char → List Char → Bool
  | [], _ => true
  | _ :: _, [] => false
  | a :: as, b :: bs => a == b && isInitSeg as bs

/-- Whether `sub` occurs contiguously inside `l`. -/
def containsSeg (sub : List Char) : List Char → Bool
  | [] => isInitSeg sub []
  | c :: rest => isInitSeg sub (c :: rest) || containsSeg sub rest

/-- Python's substring test `sub in s`. -/
def pyIn (sub s : String) : Bool :=
  containsSeg sub.data s.data

/-- Python's `str.upper()` (the inputs are ASCII). -/
def pyUpper (s : String) : String :=
  ⟨s.data.map Char.toUpper⟩

/-- Python's `str.strip()`: remove leading and trailing whitespace. -/
def pyStrip (s : String) : String :=
  ⟨((s.data.dropWhile Char.isWhitespace).reverse.dropWhile
      Char.isWhitespace).reverse⟩

/-- `TEST_BINS`: the module-level set of blocked test BINs. -/
def TEST_BINS : List String :=
  ["411111", "555555", "378282", "378734", "371449",
   "601111", "630495", "630490", "360000", "305693",
   "385200", "601100", "353011", "356600"]

/-- The `BinData` ORM row, restricted to the columns the generator reads. -/
structure BinData where
  bin : String
  brand : String
  type : Option String
  issuer : String
  country_name : String
  country_code : String
  deriving Repr, DecidableEq

/-- The database session, modelled by the two queries `validate_bin`
performs: the `BlockedBin` table (bin ↦ reason) and the `BinData` table. -/
structure Db where
  blockedBin : String → Option String
  binData : String → Option BinData

/-- `validate_bin(bin_input, db)`: returns `(is_valid, message, bin_data)`. -/
def validate_bin (bin_input : String) (db : Db) :
    Bool × String × Option BinData :=
  let bin_str := pyStrip bin_input
  if bin_str.length < 6 then
    (false, "BIN must be at least 6 digits", none)
  else
    let binPre := bin_str.take 6
    if binPre ∈ TEST_BINS then
      (false, "Test BIN blocked - use production BINs only", none)
    else
      match db.blockedBin binPre with
      | some reason => (false, "BIN blocked: " ++ reason, none)
      | none =>
        match db.binData binPre with
        | none => (false, "BIN not found in database", none)
        | some bd => (true, "Valid BIN", some bd)

/-- One draw from the explicit random stream (the stream is the model of the
`random` module's hidden state). -/
def draw : List Nat → Nat × List Nat
  | [] => (0, [])
  | r :: rs => (r, rs)

/-- `random.choice(l)`: the draw selects an index into `l`. -/
def randomChoice (l : List Nat) (r : Nat) : Nat :=
  l.getD (r % l.length) 0

/-- `random.randint(a, b)` (both ends inclusive): the draw selects one of the
`b - a + 1` values. -/
def randint (a b : Nat) (r : Nat) : Nat :=
  a + r % (b - a + 1)

/-- `get_card_length(brand, card_type)`.  The `DINERS` and `DISCOVER`
branches call `random.choice`, so the function consumes the random stream and
returns the remaining stream alongside the length. -/
def get_card_length (brand : String) (card_type : Option String)
    (rng : List Nat) : Nat × List Nat :=
  let brand_upper := pyUpper brand
  if pyIn "AMERICAN EXPRESS" brand_upper || pyIn "AMEX" brand_upper then
    (15, rng)
  else if pyIn "DINERS" brand_upper then
    let (r, rng') := draw rng
    (randomChoice [14, 16] r, rng')
  else if pyIn "DISCOVER" brand_upper then
    let (r, rng') := draw rng
    (randomChoice [16, 19] r, rng')
  else if (match card_type with
           | some t => pyIn "PREPAID" (pyUpper t)
           | none => false) then
    (16, rng)
  else
    (16, rng)

/-- `digits_of(n)` from `luhn_checksum`, applied to a string: `int(d)` for
each character.  All call sites pass decimal digit strings, on which
`c.toNat - 48` is exactly `int(d)`. -/
def pyDigitsOf (s : String) : List Nat :=
  s.data.map (fun c => c.toNat - 48)

/-- Every other element of a list, starting with the first: the model of the
Python slice `l[::2]`.  `digits[-1::-2]` is `everyOther digits.reverse` and
`digits[-2::-2]` is `everyOther (digits.reverse.drop 1)`. -/
def everyOther : List Nat → List Nat
  | [] => []
  | [a] => [a]
  | a :: _ :: rest => a :: everyOther rest

/-- Decimal digits of `n`, most significant first, computed with explicit
fuel so that the definition reduces in the kernel. -/
def digitsOfAux : Nat → Nat → List Nat
  | 0, _ => []
  | fuel + 1, n => if n < 10 then [n] else digitsOfAux fuel (n / 10) ++ [n % 10]

/-- Decimal digits of `n`, most significant first (the digits of `str(n)`). -/
def digitsOfNat (n : Nat) : List Nat :=
  digitsOfAux (n + 1) n

/-- Sum of the decimal digits of `n`: `sum(digits_of(n))`. -/
def sumDigitsOf (n : Nat) : Nat :=
  (digitsOfNat n).sum

/-- The checksum accumulated by `luhn_checksum` before the `% 10` test. -/
def luhnSum (s : String) : Nat :=
  let digits := pyDigitsOf s
  let odd_digits := everyOther digits.reverse
  let even_digits := everyOther (digits.reverse.drop 1)
  odd_digits.sum + (even_digits.map (fun d => sumDigitsOf (d * 2))).sum

/-- `luhn_checksum(card_number)`: true iff the Luhn checksum is 0 mod 10. -/
def luhn_checksum (card_number : String) : Bool :=
  luhnSum card_number % 10 == 0

/-- The check-digit search loop
`for check_digit in range(10): if luhn_checksum(...): return ...`,
returning `none` when the loop falls through. -/
def findCheckDigit (partNum : String) : Option String :=
  ((List.range 10).find? (fun c => luhn_checksum (partNum ++ toString c))).map
    (fun c => partNum ++ toString c)

/-- `bin_info.brand if bin_info else ""` (first line of
`create_card_number`). -/
def binBrandOf : Option BinData → String
  | some b => b.brand
  | none => ""

/-- `bin_info.type if bin_info else ""`.  When `bin_info` is absent the
Python value is the empty string, which is falsy exactly like `None` at every
use site, so it is modelled as `some ""`. -/
def binTypeOf : Option BinData → Option String
  | some b => b.type
  | none => some ""

/-- `weights = [2, 2, 2, 2, 2, 2, 1, 1, 1, 1]`. -/
def weights : List Nat := [2, 2, 2, 2, 2, 2, 1, 1, 1, 1]

/-- `digit_choices = list(range(10))`. -/
def digit_choices : List Nat := List.range 10

/-- Helper for weighted choice: walk the cumulative weight line. -/
def pickWeighted : List Nat → List Nat → Nat → Nat
  | [], _, _ => 0
  | p :: _, [], _ => p
  | p :: ps, w :: ws, r => if r < w then p else pickWeighted ps ws (r - w)

/-- `random.choices(population, weights=w)[0]`: the draw selects a point of
the cumulative weight line. -/
def randomChoicesW (population w : List Nat) (r : Nat) : Nat :=
  pickWeighted population w (r % max 1 w.sum)

/-- Read access `d[k]` to the `digit_counts` dict (only reachable in code
that is dead after the comprehension's `NameError`, where the key would
always be present). -/
def dictGet (d : List (Nat × Nat)) (k : Nat) : Nat :=
  (d.lookup k).getD 0

/-- `d[k] += 1` on the `digit_counts` dict. -/
def dictIncr (d : List (Nat × Nat)) (k : Nat) : List (Nat × Nat) :=
  d.map (fun p => if p.1 = k then (p.1, p.2 + 1) else p)

/-- The dict comprehension on line 118 of `card_generator.py`: key
expression `i`, value `0`, iterating `_` over `range(10)`.  The key
expression is evaluated once per iteration in the enclosing scope `env`,
which does not bind `i`. -/
def dictCompKeyI (env : List (String × Nat)) : Nat → Except PyErr (List (Nat × Nat))
  | 0 => .ok []
  | n + 1 => do
    let k ← evalName env "i"
    let rest ← dictCompKeyI env n
    .ok ((k, 0) :: rest)

/-- The inner `for _ in range(remaining_digits)` loop of
`create_card_number`: weighted digit draw, per-digit cap of two occurrences,
resample among the digits still under the cap. -/
def genDigits : Nat → List (Nat × Nat) → List Nat → List Nat × List (Nat × Nat) × List Nat
  | 0, counts, rng => ([], counts, rng)
  | n + 1, counts, rng =>
    let (r, rng1) := draw rng
    let digit := randomChoicesW digit_choices weights r
    if dictGet counts digit < 2 then
      let (rest, counts', rng') := genDigits n (dictIncr counts digit) rng1
      (digit :: rest, counts', rng')
    else
      let alternatives := digit_choices.filter (fun d => dictGet counts d < 2)
      if alternatives.isEmpty = false then
        let (r2, rng2) := draw rng1
        let alt := randomChoicesW alternatives
          (alternatives.map (fun d => weights.getD d 0)) r2
        let (rest, counts', rng') := genDigits n (dictIncr counts alt) rng2
        (alt :: rest, counts', rng')
      else
        let (r3, rng3) := draw rng1
        let (rest, counts', rng') := genDigits n counts rng3
        (randomChoice digit_choices r3 :: rest, counts', rng')

/-- `''.join(map(str, random_digits))` (the `digit_str` local of
`create_card_number`, the string the pattern scans are applied to). -/
def digit_str (random_digits : List Nat) : String :=
  String.join (random_digits.map toString)

/-- `partial_number = bin_prefix + ''.join(map(str, random_digits))`. -/
def partNumber (binPre : String) (random_digits : List Nat) : String :=
  binPre ++ digit_str random_digits

/-- `any(body for _ in range(n))` where the body does not depend on the loop
variable `_`: evaluate the body once per iteration, short-circuiting. -/
def pyAnyConst : Nat → Except PyErr Bool → Except PyErr Bool
  | 0, _ => .ok false
  | n + 1, body => do
    let b ← body
    if b then .ok true else pyAnyConst n body

/-- `s[k]` on a string (dead code after the scan bodies' `NameError`). -/
def sGet (s : String) (k : Nat) : Char :=
  s.data.getD k ' '

/-- `int(c)` on a digit character. -/
def pyIntOfChar (c : Char) : Int :=
  (c.toNat : Int) - 48

/-- Body of the identical-run scan
`digit_str[i] == digit_str[i+1] == digit_str[i+2]`, evaluated in a scope that
does not bind `i`. -/
def scanIdenticalBody (s : String) : Except PyErr Bool := do
  let i ← evalName [] "i"
  .ok (sGet s i == sGet s (i + 1) && sGet s (i + 1) == sGet s (i + 2))

/-- Body of the ascending-run scan, evaluated in a scope that does not bind
`i`. -/
def scanAscendingBody (s : String) : Except PyErr Bool := do
  let i ← evalName [] "i"
  .ok (pyIntOfChar (sGet s i) + 1 == pyIntOfChar (sGet s (i + 1)) &&
       pyIntOfChar (sGet s (i + 1)) + 1 == pyIntOfChar (sGet s (i + 2)))

/-- Body of the descending-run scan, evaluated in a scope that does not bind
`i`. -/
def scanDescendingBody (s : String) : Except PyErr Bool := do
  let i ← evalName [] "i"
  .ok (pyIntOfChar (sGet s i) - 1 == pyIntOfChar (sGet s (i + 1)) &&
       pyIntOfChar (sGet s (i + 1)) - 1 == pyIntOfChar (sGet s (i + 2)))

/-- `has_three_identical = any(... for _ in range(len(digit_str) - 2))`. -/
def has_three_identical (s : String) : Except PyErr Bool :=
  pyAnyConst (s.length - 2) (scanIdenticalBody s)

/-- `has_ascending = any(... for _ in range(len(digit_str) - 2))`. -/
def has_ascending (s : String) : Except PyErr Bool :=
  pyAnyConst (s.length - 2) (scanAscendingBody s)

/-- `has_descending = any(... for _ in range(len(digit_str) - 2))`. -/
def has_descending (s : String) : Except PyErr Bool :=
  pyAnyConst (s.length - 2) (scanDescendingBody s)

/-- One iteration of the `for _ in range(max_attempts)` loop of
`create_card_number`; `some full` models `return full_number`. -/
def attemptBody (binPre : String) (remaining : Nat) (rng : List Nat) :
    Except PyErr (Option String × List Nat) := do
  -- random_digits = []
  -- digit_counts = the dict comprehension with unbound key `i`
  let counts ← dictCompKeyI [] 10
  let (random_digits, _counts', rng) := genDigits remaining counts rng
  let partNum := partNumber binPre random_digits
  let ds := digit_str random_digits
  let hasId ← has_three_identical ds
  let hasAsc ← has_ascending ds
  let hasDesc ← has_descending ds
  if !(hasId || hasAsc || hasDesc) then
    match findCheckDigit partNum with
    | some full => .ok (some full, rng)
    | none => .ok (none, rng)
  else
    .ok (none, rng)

/-- The bounded attempt loop (`max_attempts = 100`). -/
def attemptLoop (binPre : String) (remaining : Nat) :
    Nat → List Nat → Except PyErr (Option String × List Nat)
  | 0, rng => .ok (none, rng)
  | n + 1, rng => do
    let (res, rng') ← attemptBody binPre remaining rng
    match res with
    | some full => .ok (some full, rng')
    | none => attemptLoop binPre remaining n rng'

/-- `''.join([str(random.randint(0, 9)) for _ in range(n)])` of the fallback
path, as the list of drawn digits. -/
def uniformDigits : Nat → List Nat → List Nat × List Nat
  | 0, rng => ([], rng)
  | n + 1, rng =>
    let (r, rng1) := draw rng
    let (rest, rng') := uniformDigits n rng1
    (randint 0 9 r :: rest, rng')

/-- `create_card_number(bin_prefix, bin_info)`.  Returns the card number and
the remaining random stream, or the Python error the call raises. -/
def create_card_number (binPre : String) (bin_info : Option BinData)
    (rng : List Nat) : Except PyErr (String × List Nat) := do
  let brand := binBrandOf bin_info
  let card_type := binTypeOf bin_info
  let lenRng := get_card_length brand card_type rng
  let target_length := lenRng.1
  let rng := lenRng.2
  let bin_len := binPre.length
  let remaining := target_length - bin_len - 1
  let (res, rng) ← attemptLoop binPre remaining 100 rng
  match res with
  | some full => .ok (full, rng)
  | none =>
    let (random_part, rng) := uniformDigits (target_length - bin_len - 1) rng
    let partNum := binPre ++ digit_str random_part
    match findCheckDigit partNum with
    | some full => .ok (full, rng)
    | none => .ok (partNum ++ "0", rng)

/-- The Luhn contribution of the digits of `s` once one more digit has been
appended: the old last digit moves to a doubled position, and so on.
`luhnSum (s ++ d) = d + luhnT s` for a digit character `d`. -/
def luhnT (s : String) : Nat :=
  (everyOther ((pyDigitsOf s).reverse.drop 1)).sum +
    ((everyOther (pyDigitsOf s).reverse).map (fun d => sumDigitsOf (d * 2))).sum

/-- Digit value of a character. -/
def digitVal (c : Char) : Int :=
  (c.toNat : Int) - 48

/-- Three identical consecutive characters somewhere in the list.  This is
the first disqualifying pattern as the specification states it, used to
compare the string the code scans with the string the specification says is
scanned. -/
def hasRunIdentical : List Char → Bool
  | a :: b :: c :: rest => (a == b && b == c) || hasRunIdentical (b :: c :: rest)
  | _ => false

/-- Three strictly ascending consecutive digits somewhere in the list (the
second disqualifying pattern of the specification). -/
def hasRunAscending : List Char → Bool
  | a :: b :: c :: rest =>
    (digitVal a + 1 == digitVal b && digitVal b + 1 == digitVal c) ||
      hasRunAscending (b :: c :: rest)
  | _ => false

/-- Three strictly descending consecutive digits somewhere in the list (the
third disqualifying pattern of the specification). -/
def hasRunDescending : List Char → Bool
  | a :: b :: c :: rest =>
    (digitVal a - 1 == digitVal b && digitVal b - 1 == digitVal c) ||
      hasRunDescending (b :: c :: rest)
  | _ => false

/-- Modelled from the spec: the pattern scan as section 4.2 of the
specification describes it — the three disqualifying patterns looked for
"across the prefix+suffix string" —, applied to a given string.  Used only
to compare against the string the source actually scans. -/
def specDisqualified (s : String) : Bool :=
  hasRunIdentical s.data || hasRunAscending s.data || hasRunDescending s.data

/-- A database row for the BIN 378282 (Amex family), used as a concrete
input. -/
def amexRow : BinData :=
  ⟨"378282", "AMERICAN EXPRESS", some "CREDIT", "AMERICAN EXPRESS",
   "UNITED STATES", "US"⟩

/-- A database holding only the 378282 row, with an empty blocklist. -/
def dbAmex : Db :=
  ⟨fun _ => none, fun b => if b = "378282" then some amexRow else none⟩

/-- A database row for the BIN 123456, used as a concrete input. -/
def visaRow : BinData :=
  ⟨"123456", "VISA", some "CREDIT", "TEST BANK", "UNITED STATES", "US"⟩

/-- A database holding only the 123456 row, with an empty blocklist. -/
def dbNine : Db :=
  ⟨fun _ => none, fun b => if b = "123456" then some visaRow else none⟩

/-- A database row keyed by the non-digit prefix `12a456`. -/
def alnumRow : BinData :=
  ⟨"12a456", "VISA", some "CREDIT", "TEST BANK", "UNITED STATES", "US"⟩

/-- A database holding only the `12a456` row, with an empty blocklist. -/
def dbAlnum : Db :=
  ⟨fun _ => none, fun b => if b = "12a456" then some alnumRow else none⟩

/-- The empty database. -/
def dbEmpty : Db :=
  ⟨fun _ => none, fun _ => none⟩

/-- Python's `s.startswith(p)`. -/
def pyStartsWith (p s : String) : Bool :=
  isInitSeg p.data s.data

/-- Python's slice `s[a:b]` for `0 ≤ a ≤ b`. -/
def pySlice (s : String) (a b : Nat) : String :=
  ⟨(s.data.drop a).take (b - a)⟩

/-- `''.join(seq)` restricted on a separator, `sep.join(seq)`. -/
def joinSep (sep : String) : List String → String
  | [] => ""
  | [x] => x
  | x :: y :: rest => x ++ sep ++ joinSep sep (y :: rest)

/-- `generate_cvv(card_number, expiry, seed)`.  The SHA-256 hex digest of
`hashlib` is an external primitive, passed in as the parameter `hashHex`;
the embedding is parametric in it.  Returns the CVV and the remaining random
stream. -/
def generate_cvv (card_number : String) (expiry : Option String)
    (seed : Bool) (hashHex : String → String) (rng : List Nat) :
    String × List Nat :=
  let cvv_length :=
    if pyStartsWith "34" card_number || pyStartsWith "37" card_number then 4
    else 3
  let fallback :=
    let (ds, rng') := uniformDigits cvv_length rng
    (String.join (ds.map toString), rng')
  if seed && (match expiry with | some e => e ≠ "" | none => false) then
    let seed_string := card_number ++ (match expiry with | some e => e | none => "")
    let hash_digest := hashHex seed_string
    let cvv : String := ⟨(hash_digest.data.filter Char.isDigit).take cvv_length⟩
    if cvv.length = cvv_length then (cvv, rng) else fallback
  else
    fallback

/-- The `months_to_add` draw of `generate_expiry`: `random.randint(12, 24)`
for prepaid card types, `random.randint(36, 60)` otherwise. -/
def months_to_add (card_type : Option String) (r : Nat) : Nat :=
  if (match card_type with
      | some t => pyIn "PREPAID" (pyUpper t)
      | none => false) then
    randint 12 24 r
  else
    randint 36 60 r

/-- `generate_expiry(card_type)`:
`datetime.now() + timedelta(days=months_to_add * 30)`.  Time is modelled in
days; `nowDays` is the generation timestamp and the result is the expiry
timestamp. -/
def generate_expiry (card_type : Option String) (nowDays : Int) (r : Nat) :
    Int :=
  nowDays + (months_to_add card_type r : Int) * 30

/-- The `AVS_POSTAL_CODES` table. -/
def AVS_POSTAL_CODES (cc : String) : Option (List String) :=
  if cc = "US" then some ["10001", "90210", "60601", "94102", "33101"]
  else if cc = "IT" then some ["00100", "20100", "80100", "40100", "50100"]
  else if cc = "GB" then some ["SW1A 1AA", "M1 1AA", "B1 1AA", "L1 1AA", "CF1 1AA"]
  else if cc = "CA" then some ["M5H 2N2", "V6B 1A1", "T2P 1J9", "H2Y 1A6", "K1A 0A6"]
  else if cc = "AU" then some ["2000", "3000", "4000", "5000", "6000"]
  else if cc = "DE" then some ["10115", "20095", "80331", "50667", "01067"]
  else if cc = "FR" then some ["75001", "69001", "13001", "31000", "59000"]
  else none

/-- `generate_avs_postal_code(country_code)`. -/
def generate_avs_postal_code (country_code : String) (r : Nat) :
    Option String :=
  match AVS_POSTAL_CODES (pyUpper country_code) with
  | some l => some (l.getD (r % l.length) "")
  | none => none

/-- The dict `format_card_display` returns. -/
structure CardDisplay where
  number : String
  cvv : String
  expiry : String
  bin : String
  brand : Option String
  issuer : Option String
  type : Option String
  country : Option String
  country_code : Option String
  postal_code : Option String
  deriving Repr, DecidableEq

/-- Body of the comprehension
`[number[i:i+4] for _ in range(0, len(number), 4)]` in the non-15-digit
branch of `format_card_display`, evaluated in a scope that does not bind
`i`. -/
def groupBody (s : String) : Except PyErr String := do
  let i ← evalName [] "i"
  .ok (pySlice s i (i + 4))

/-- A list comprehension of `n` iterations whose body does not depend on the
loop variable. -/
def pyListCompConst : Nat → Except PyErr String → Except PyErr (List String)
  | 0, _ => .ok []
  | n + 1, body => do
    let x ← body
    let rest ← pyListCompConst n body
    .ok (x :: rest)

/-- `format_card_display(number, cvv, expiry, bin_info, postal_code)`. -/
def format_card_display (number cvv expiry : String)
    (bin_info : Option BinData) (postal_code : Option String) :
    Except PyErr CardDisplay := do
  let formatted_number ←
    if number.length == 15 then
      .ok (pySlice number 0 4 ++ " " ++ pySlice number 4 10 ++ " " ++
        (⟨number.data.drop 10⟩ : String))
    else do
      let groups ← pyListCompConst ((number.length + 3) / 4) (groupBody number)
      .ok (joinSep " " groups)
  .ok
    { number := formatted_number
      cvv := cvv
      expiry := expiry
      bin := if number.length ≥ 6 then ⟨number.data.take 6⟩ else number
      brand := bin_info.map (·.brand)
      issuer := bin_info.map (·.issuer)
      type := bin_info.bind (·.type)
      country := bin_info.map (·.country_name)
      country_code := bin_info.map (·.country_code)
      postal_code := postal_code }

/-- `generate_test_card(bin_input, db, include_avs, avs_country)`.  The
`strftime` month/year formatting of the expiry timestamp is external calendar
logic, passed in as `fmtDate`; SHA-256 is passed in as `hashHex`. -/
def generate_test_card (bin_input : String) (db : Db) (include_avs : Bool)
    (avs_country : Option String) (rng : List Nat) (nowDays : Int)
    (hashHex : String → String) (fmtDate : Int → String) :
    Except PyErr CardDisplay := do
  let v := validate_bin bin_input db
  let is_valid := v.1
  let message := v.2.1
  let bin_data := v.2.2
  if is_valid = false then
    .error (.valueError message)
  else do
    let (card_number, rng) ← create_card_number bin_input bin_data rng
    let (rE, rng) := draw rng
    let expiry := fmtDate (generate_expiry (bin_data.bind (·.type)) nowDays rE)
    let (cvv, rng) := generate_cvv card_number (some expiry) true hashHex rng
    let postal_code ←
      if include_avs &&
          (match avs_country with | some c => c ≠ "" | none => false) then
        let (rA, _) := draw rng
        match generate_avs_postal_code
            (match avs_country with | some c => c | none => "") rA with
        | some pc => pure (some pc)
        | none =>
          Except.error (.valueError ("AVS not supported for country: " ++
            (match avs_country with | some c => c | none => "")))
      else
        pure none
    format_card_display card_number cvv expiry bin_data postal_code

end CardGen

namespace RateLimiter

/-- One entry of `self.rate_limits`: requests per window, window length in
seconds, burst limit. -/
structure RateConfig where
  requests : Nat
  window : Int
  burst : Nat
  deriving Repr, DecidableEq

/-- `self.rate_limits["default"]`. -/
def defaultConfig : RateConfig := ⟨60, 60, 10⟩

/-- `self.rate_limits.get(action, self.rate_limits["default"])`. -/
def rateLimits (action : String) : RateConfig :=
  if action = "default" then defaultConfig
  else if action = "bin_lookup" then ⟨100, 60, 15⟩
  else if action = "card_generation" then ⟨20, 60, 5⟩
  else if action = "crypto_check" then ⟨30, 60, 8⟩
  else if action = "auth" then ⟨10, 300, 3⟩
  else if action = "webhook" then ⟨1000, 60, 50⟩
  else if action = "premium" then ⟨500, 60, 50⟩
  else defaultConfig

/-- `self.penalty_multipliers`: the dict `1 ↦ 1.0, 2 ↦ 2.0, 3 ↦ 4.0,
4 ↦ 8.0, 5 ↦ 16.0` (`none` models a missing key). -/
def penaltyMultipliers : Nat → Option Nat
  | 1 => some 1
  | 2 => some 2
  | 3 => some 4
  | 4 => some 8
  | 5 => some 16
  | _ => none

/-- `max(self.penalty_multipliers.keys())`. -/
def maxPenaltyKey : Nat := 5

/-- `_calculate_penalty_delay(violation_count)`:
`int(60 * self.penalty_multipliers.get(min(violation_count, 5), 16.0))`.
All multipliers are integral, so the float arithmetic is exact. -/
def calculatePenaltyDelay (violation_count : Nat) : Nat :=
  60 * ((penaltyMultipliers (min violation_count maxPenaltyKey)).getD 16)

/-- The decision `check_rate_limit` produces for one request: the `allowed`
dict on admission, or the HTTP 429 exception on denial.  `byBurst` records
which of the two checks fired (the `reason` string of the source). -/
inductive RateDecision where
  | allowed (current_count : Nat) (remaining : Int) (reset_time : Int)
  | denied (retry_after : Nat) (violation_count : Nat) (byBurst : Bool)
  deriving Repr, DecidableEq

/-- Whether a decision admits the request. -/
def RateDecision.isAllowed : RateDecision → Bool
  | .allowed .. => true
  | .denied .. => false

/-- Whether a decision is a denial reported against the burst limit. -/
def RateDecision.isBurstDenial : RateDecision → Bool
  | .denied _ _ b => b
  | .allowed .. => false

/-- The `retry_after` value a denial carries (0 for an admission). -/
def RateDecision.retryAfterOf : RateDecision → Nat
  | .denied r _ _ => r
  | .allowed .. => 0

/-! ### The in-process fallback path (`self.redis_client is None`) -/

/-- The slice of `self.memory_store` for one `(identity, action)` key: the
request timestamp list under the rate-limit key and the violation counter
under the violation key (0 when absent, as `self.memory_store.get(k, 0)`). -/
structure MemState where
  reqs : List Int
  violations : Nat
  deriving Repr, DecidableEq

/-- The fresh state for an identity that has never been seen. -/
def MemState.empty : MemState := ⟨[], 0⟩

/-- `_memory_get_usage(key, window)`: drop entries with
`timestamp <= now - window` (the mutation of `self.memory_store[key]`) and
return the cleaned list with its length. -/
def memoryGetUsage (window : Int) (now : Int) (reqs : List Int) :
    List Int × Nat :=
  let cleaned := reqs.filter (fun t => now - window < t)
  (cleaned, cleaned.length)

/-- `check_rate_limit(request, action)` on the memory-fallback path
(`self.redis_client is None`): the burst query is skipped, so
`recent_requests` keeps its initial value 0. -/
def memCheckRateLimit (action : String) (st : MemState) (now : Int) :
    RateDecision × MemState :=
  let cfg := rateLimits action
  let window := cfg.window
  let limit := cfg.requests
  let burst := cfg.burst
  let u := memoryGetUsage window now st.reqs
  let cleaned := u.1
  let current_count := u.2
  let window_start := now - now % window
  let recent_requests : Nat := 0
  let violation_count := st.violations
  let penalty_delay := calculatePenaltyDelay violation_count
  if current_count ≥ limit then
    (.denied penalty_delay (violation_count + 1) false,
     ⟨cleaned, st.violations + 1⟩)
  else if recent_requests ≥ burst then
    (.denied penalty_delay (violation_count + 1) true,
     ⟨cleaned, st.violations + 1⟩)
  else
    (.allowed (current_count + 1) (max 0 ((limit : Int) - current_count - 1))
       (window_start + window),
     ⟨cleaned ++ [now], st.violations⟩)

/-- Process a sequence of request times in order on the memory-fallback
path, collecting the per-request decisions. -/
def memRun (action : String) (st : MemState) :
    List Int → List RateDecision × MemState
  | [] => ([], st)
  | t :: ts =>
    let (d, st') := memCheckRateLimit action st t
    let (ds, st'') := memRun action st' ts
    (d :: ds, st'')

/-! ### The Redis-backed path (`self.redis_client` available, no errors) -/

/-- The Redis state for one `(identity, action)` key: the sorted set of
request timestamps (`zadd` keys members by `str(now)`, so members are
distinct timestamps), the violation counter, and the violation key's expiry
time (the `expire(violation_key, 3600)` TTL; 0 when the key was never
set). -/
structure RedisState where
  zset : List Int
  violations : Nat
  violationExpireAt : Int
  deriving Repr, DecidableEq

/-- The fresh Redis state. -/
def RedisState.empty : RedisState := ⟨[], 0, 0⟩

/-- `_get_current_usage` on Redis: `zremrangebyscore(key, 0, now - window)`
removes the scores in `[0, now - window]`, then `zcard` counts the rest. -/
def redisGetUsage (window : Int) (now : Int) (zset : List Int) :
    List Int × Nat :=
  let cleaned := zset.filter (fun s => !(0 ≤ s && s ≤ now - window))
  (cleaned, cleaned.length)

/-- `_get_violation_count` on Redis: the counter reads as 0 once its TTL has
passed. -/
def redisViolationCount (st : RedisState) (now : Int) : Nat :=
  if now < st.violationExpireAt then st.violations else 0

/-- `check_rate_limit(request, action)` on the Redis path (every Redis call
succeeding): `recent_requests = zcount(key, now - 60, now)` and `zadd`
inserts the member `str(now)` (a set insert of the timestamp). -/
def redisCheckRateLimit (action : String) (st : RedisState) (now : Int) :
    RateDecision × RedisState :=
  let cfg := rateLimits action
  let window := cfg.window
  let limit := cfg.requests
  let burst := cfg.burst
  let u := redisGetUsage window now st.zset
  let cleaned := u.1
  let current_count := u.2
  let window_start := now - now % window
  let recent_requests := (cleaned.filter (fun s => now - 60 ≤ s && s ≤ now)).length
  let violation_count := redisViolationCount st now
  let penalty_delay := calculatePenaltyDelay violation_count
  if current_count ≥ limit then
    (.denied penalty_delay (violation_count + 1) false,
     ⟨cleaned, violation_count + 1, now + 3600⟩)
  else if recent_requests ≥ burst then
    (.denied penalty_delay (violation_count + 1) true,
     ⟨cleaned, violation_count + 1, now + 3600⟩)
  else
    (.allowed (current_count + 1) (max 0 ((limit : Int) - current_count - 1))
       (window_start + window),
     ⟨if cleaned.contains now then cleaned else cleaned ++ [now],
      st.violations, st.violationExpireAt⟩)

/-- Process a sequence of request times in order on the Redis path. -/
def redisRun (action : String) (st : RedisState) :
    List Int → List RateDecision × RedisState
  | [] => ([], st)
  | t :: ts =>
    let (d, st') := redisCheckRateLimit action st t
    let (ds, st'') := redisRun action st' ts
    (d :: ds, st'')

end RateLimiter


/-! ## Helper lemmas -/

namespace CardGen

lemma everyOther_cons (a : Nat) (r : List Nat) :
    everyOther (a :: r) = a :: everyOther (r.drop 1) := by
  cases r <;> rfl

lemma pyDigitsOf_append_digit (s : String) (c : Nat) (h : c < 10) :
    pyDigitsOf (s ++ toString c) = pyDigitsOf s ++ [c] := by
  interval_cases c <;>
    (simp only [pyDigitsOf, String.data_append, List.map_append]; congr 1)

lemma luhnSum_append (s : String) (c : Nat) (h : c < 10) :
    luhnSum (s ++ toString c) = c + luhnT s := by
  unfold luhnSum luhnT
  rw [pyDigitsOf_append_digit s c h]
  simp [List.reverse_append, everyOther_cons]
  ring

lemma luhn_append_digit_iff (s : String) (c : Nat) (h : c < 10) :
    luhn_checksum (s ++ toString c) = true ↔ (c + luhnT s) % 10 = 0 := by
  unfold luhn_checksum
  rw [luhnSum_append s c h]
  simp

end CardGen


/-! ## The claims -/

/-- Monadic bind on `Except` propagates an error. -/
lemma error_bind {ε α β : Type} (e : ε) (f : α → Except ε β) :
    (Except.error e >>= f) = Except.error e := rfl

/-- The first statement of each iteration of the attempt loop already
raises: the dict comprehension's key expression `i` is unbound. -/
lemma create_card_number_raises (binPre : String)
    (info : Option CardGen.BinData) (rng : List Nat) :
    CardGen.create_card_number binPre info rng =
      .error (.nameError "i") := rfl

/-- C1: `create_card_number` never returns normally — the first iteration of
its attempt loop evaluates comprehensions referencing the unbound variable
`i`, so every call raises `NameError` — and consequently
`generate_test_card` never returns a card, for any BIN, database and random
stream. -/
theorem claim_C1 :
    (∀ (binPre : String) (info : Option CardGen.BinData) (rng : List Nat),
      CardGen.create_card_number binPre info rng =
        .error (.nameError "i")) ∧
    (∀ (input : String) (db : CardGen.Db) (ia : Bool) (ac : Option String)
        (rng : List Nat) (now : Int) (hh : String → String)
        (fd : Int → String) (card : CardGen.CardDisplay),
      CardGen.generate_test_card input db ia ac rng now hh fd ≠
        .ok card) := by
  refine ⟨fun _ _ _ => rfl, ?_⟩
  intro input db ia ac rng now hh fd card h
  rcases hok : (CardGen.validate_bin input db).1
  · simp [CardGen.generate_test_card, hok] at h
  · simp [CardGen.generate_test_card, hok,
      create_card_number_raises, error_bind] at h

/-- C5 counterexample: generation for the prefix 378282 does not succeed,
even against a database that carries an Amex row for it with an empty
blocklist — the prefix is in `TEST_BINS`, so `validate_bin` rejects it and
`generate_test_card` raises `ValueError` instead of returning a card. -/
theorem claim_C5_counterexample :
    CardGen.generate_test_card "378282" CardGen.dbAmex false none
        [0, 1, 2, 3] 0 (fun s => s) (fun _ => "01/2030") =
      .error (.valueError "Test BIN blocked - use production BINs only") :=
  rfl

/-- C5 amended: generation for the prefix 378282 always fails — 378282 is a
member of `TEST_BINS`, so `validate_bin` blocks it regardless of the
database, and `generate_test_card` raises
`ValueError("Test BIN blocked - use production BINs only")` instead of
returning a 15-digit card. -/
theorem claim_C5 (db : CardGen.Db) (ia : Bool) (ac : Option String)
    (rng : List Nat) (now : Int) (hh : String → String)
    (fd : Int → String) :
    CardGen.generate_test_card "378282" db ia ac rng now hh fd =
      .error (.valueError "Test BIN blocked - use production BINs only") :=
  rfl

/-- An arbitrary `BIN blocked: <reason>` message never coincides with the
too-short message (the two differ at their fifth character). -/
lemma blocked_msg_ne (r : String) :
    ("BIN blocked: " ++ r) ≠ "BIN must be at least 6 digits" := by
  intro hEq
  have hd := congrArg String.data hEq
  rw [String.data_append] at hd
  have h4 := congrArg (fun l => l.getD 4 ' ') hd
  simp only at h4
  rw [List.getD_append _ _ _ _ (by decide)] at h4
  exact absurd h4 (by decide)

/-- C6 counterexample: a trimmed 9-character input is not rejected for its
format — it is truncated to its first 6 digits and classified — and a
6-character input containing a letter is likewise classified rather than
rejected. -/
theorem claim_C6_counterexample :
    CardGen.validate_bin "123456789" CardGen.dbNine =
        (true, "Valid BIN", some CardGen.visaRow) ∧
    (CardGen.pyStrip "123456789").length = 9 ∧
    CardGen.validate_bin "12a456" CardGen.dbAlnum =
        (true, "Valid BIN", some CardGen.alnumRow) :=
  ⟨rfl, rfl, rfl⟩

/-- C6 amended: `validate_bin` returns its only format rejection, the
`BIN must be at least 6 digits` result, exactly when the trimmed input is
shorter than 6 characters; longer inputs are truncated to their first 6
characters and no upper-length or all-digits check is performed. -/
theorem claim_C6 (input : String) (db : CardGen.Db) :
    CardGen.validate_bin input db =
        (false, "BIN must be at least 6 digits", none) ↔
      (CardGen.pyStrip input).length < 6 := by
  constructor
  · intro heq
    by_contra hlen
    simp only [CardGen.validate_bin] at heq
    rw [if_neg hlen] at heq
    by_cases hmem : ((CardGen.pyStrip input).take 6) ∈ CardGen.TEST_BINS
    · rw [if_pos hmem] at heq
      exact absurd (congrArg (fun p => p.2.1) heq) (by decide)
    · rw [if_neg hmem] at heq
      rcases hb : db.blockedBin ((CardGen.pyStrip input).take 6)
        with _ | reason
      · rw [hb] at heq
        rcases hd : db.binData ((CardGen.pyStrip input).take 6) with _ | bd
        · rw [hd] at heq
          exact absurd (congrArg (fun p => p.2.1) heq) (by decide)
        · rw [hd] at heq
          simp at heq
      · rw [hb] at heq
        exact blocked_msg_ne reason (congrArg (fun p => p.2.1) heq)
  · intro hlen
    simp only [CardGen.validate_bin]
    rw [if_pos hlen]

/-- C6 witness: the amended rule applied to the too-short input `12`. -/
theorem claim_C6_witness :
    CardGen.validate_bin "12" CardGen.dbEmpty =
      (false, "BIN must be at least 6 digits", none) :=
  (claim_C6 "12" CardGen.dbEmpty).mpr (by decide)

/-- C7 counterexample: for the prefix 412211 and the suffix digits
1,0,5,8,2,7,4,3, the prefix+suffix string contains the identical run `111`
straddling the boundary while the suffix alone contains no disqualifying
pattern; the scan in the code is applied to the suffix string `digit_str`
and itself raises `NameError`, and `create_card_number` raises before any
scan — so the straddling run is not detected. -/
theorem claim_C7_counterexample :
    CardGen.specDisqualified
        (CardGen.partNumber "412211" [1, 0, 5, 8, 2, 7, 4, 3]) = true ∧
    CardGen.specDisqualified
        (CardGen.digit_str [1, 0, 5, 8, 2, 7, 4, 3]) = false ∧
    CardGen.has_three_identical (CardGen.digit_str [1, 0, 5, 8, 2, 7, 4, 3]) =
      .error (.nameError "i") ∧
    CardGen.create_card_number "412211" (some CardGen.visaRow) [0, 1, 2, 3] =
      .error (.nameError "i") :=
  ⟨by decide, by decide, rfl, rfl⟩

/-- C7 amended: the three pattern scans are applied to the suffix-only
string `digit_str`, not to prefix+suffix, and their generator expressions
reference the unbound variable `i`: whenever the scanned string has length
at least 3 each scan raises `NameError`, and for shorter strings the empty
generator yields `False`; a disqualifying run that straddles the
prefix/suffix boundary (visible in `partNumber`, the prefix+suffix string)
is absent from the scanned suffix string. -/
theorem claim_C7 :
    (∀ s : String, 3 ≤ s.length →
      CardGen.has_three_identical s = .error (.nameError "i") ∧
      CardGen.has_ascending s = .error (.nameError "i") ∧
      CardGen.has_descending s = .error (.nameError "i")) ∧
    (∀ s : String, s.length ≤ 2 →
      CardGen.has_three_identical s = .ok false ∧
      CardGen.has_ascending s = .ok false ∧
      CardGen.has_descending s = .ok false) ∧
    CardGen.specDisqualified
        (CardGen.partNumber "412211" [1, 0, 5, 8, 2, 7, 4, 3]) = true ∧
    CardGen.specDisqualified
        (CardGen.digit_str [1, 0, 5, 8, 2, 7, 4, 3]) = false := by
  refine ⟨?_, ?_, by decide, by decide⟩
  · intro s h3
    have h : s.length - 2 = (s.length - 3) + 1 := by omega
    refine ⟨?_, ?_, ?_⟩
    · rw [CardGen.has_three_identical, h]; rfl
    · rw [CardGen.has_ascending, h]; rfl
    · rw [CardGen.has_descending, h]; rfl
  · intro s h2
    have h : s.length - 2 = 0 := by omega
    refine ⟨?_, ?_, ?_⟩
    · rw [CardGen.has_three_identical, h]; rfl
    · rw [CardGen.has_ascending, h]; rfl
    · rw [CardGen.has_descending, h]; rfl

/-- C7 witness: the amended behaviour at the concrete scanned strings `123`
(length 3: `NameError`) and `12` (length 2: vacuously no pattern). -/
theorem claim_C7_witness :
    (CardGen.has_three_identical "123" = .error (.nameError "i") ∧
     CardGen.has_ascending "123" = .error (.nameError "i") ∧
     CardGen.has_descending "123" = .error (.nameError "i")) ∧
    (CardGen.has_three_identical "12" = .ok false ∧
     CardGen.has_ascending "12" = .ok false ∧
     CardGen.has_descending "12" = .ok false) :=
  ⟨claim_C7.1 "123" (by decide), claim_C7.2.1 "12" (by decide)⟩

/-- C8 counterexample: two calls of the length rule with the identical
Diners brand and category return different lengths — the result depends on
the random draw, not on brand and category alone. -/
theorem claim_C8_counterexample :
    (CardGen.get_card_length "DINERS CLUB INTERNATIONAL" (some "CREDIT")
        [0]).1 = 14 ∧
    (CardGen.get_card_length "DINERS CLUB INTERNATIONAL" (some "CREDIT")
        [1]).1 = 16 :=
  ⟨by decide, by decide⟩

/-- C8 amended: the generated length is 15 for every Amex-family brand and
16 for every brand outside the Amex, Diners and Discover families,
independently of the random stream; for the Diners family it is drawn
randomly from 14 or 16 and for the Discover family from 16 or 19, so for
those two families the length is not a function of brand and category
alone. -/
theorem claim_C8 (brand : String) (ct : Option String) (rng : List Nat) :
    ((CardGen.pyIn "AMERICAN EXPRESS" (CardGen.pyUpper brand) ||
        CardGen.pyIn "AMEX" (CardGen.pyUpper brand)) = true →
      (CardGen.get_card_length brand ct rng).1 = 15) ∧
    ((CardGen.pyIn "AMERICAN EXPRESS" (CardGen.pyUpper brand) ||
        CardGen.pyIn "AMEX" (CardGen.pyUpper brand)) = false →
      CardGen.pyIn "DINERS" (CardGen.pyUpper brand) = true →
      (CardGen.get_card_length brand ct rng).1 = 14 ∨
        (CardGen.get_card_length brand ct rng).1 = 16) ∧
    ((CardGen.pyIn "AMERICAN EXPRESS" (CardGen.pyUpper brand) ||
        CardGen.pyIn "AMEX" (CardGen.pyUpper brand)) = false →
      CardGen.pyIn "DINERS" (CardGen.pyUpper brand) = false →
      CardGen.pyIn "DISCOVER" (CardGen.pyUpper brand) = true →
      (CardGen.get_card_length brand ct rng).1 = 16 ∨
        (CardGen.get_card_length brand ct rng).1 = 19) ∧
    ((CardGen.pyIn "AMERICAN EXPRESS" (CardGen.pyUpper brand) ||
        CardGen.pyIn "AMEX" (CardGen.pyUpper brand)) = false →
      CardGen.pyIn "DINERS" (CardGen.pyUpper brand) = false →
      CardGen.pyIn "DISCOVER" (CardGen.pyUpper brand) = false →
      (CardGen.get_card_length brand ct rng).1 = 16) := by
  refine ⟨?_, ?_, ?_, ?_⟩
  · intro hA
    simp [CardGen.get_card_length, hA]
  · intro hA hD
    have h2 : (CardGen.draw rng).1 % 2 = 0 ∨ (CardGen.draw rng).1 % 2 = 1 := by
      omega
    rcases h2 with h | h <;>
      simp [CardGen.get_card_length, hA, hD, CardGen.randomChoice, h]
  · intro hA hD hS
    have h2 : (CardGen.draw rng).1 % 2 = 0 ∨ (CardGen.draw rng).1 % 2 = 1 := by
      omega
    rcases h2 with h | h <;>
      simp [CardGen.get_card_length, hA, hD, hS, CardGen.randomChoice, h]
  · intro hA hD hS
    simp only [CardGen.get_card_length, hA, hD, hS, Bool.false_eq_true,
      if_false]
    split <;> rfl

/-- C8 witness: the deterministic Amex branch at a concrete brand. -/
theorem claim_C8_witness :
    (CardGen.pyIn "AMERICAN EXPRESS" (CardGen.pyUpper "American Express") ||
      CardGen.pyIn "AMEX" (CardGen.pyUpper "American Express")) = true ∧
    (CardGen.get_card_length "American Express" none []).1 = 15 :=
  ⟨by decide, (claim_C8 "American Express" none []).1 (by decide)⟩

/-- C9: the generated expiry is strictly after the generation timestamp,
and its distance is m × 30 days for a month count m drawn from 12..24 for
prepaid card types and from 36..60 for every other card type (the source
measures a month as 30 days: `timedelta(days=months_to_add * 30)`). -/
theorem claim_C9 (ct : Option String) (now : Int) (r : Nat) :
    now < CardGen.generate_expiry ct now r ∧
    ((match ct with
      | some t => CardGen.pyIn "PREPAID" (CardGen.pyUpper t)
      | none => false) = true →
      ∃ m : Nat, 12 ≤ m ∧ m ≤ 24 ∧
        CardGen.generate_expiry ct now r = now + (m : Int) * 30) ∧
    ((match ct with
      | some t => CardGen.pyIn "PREPAID" (CardGen.pyUpper t)
      | none => false) = false →
      ∃ m : Nat, 36 ≤ m ∧ m ≤ 60 ∧
        CardGen.generate_expiry ct now r = now + (m : Int) * 30) := by
  have h13 : r % 13 < 13 := Nat.mod_lt _ (by omega)
  have h25 : r % 25 < 25 := Nat.mod_lt _ (by omega)
  rcases hp : (match ct with
    | some t => CardGen.pyIn "PREPAID" (CardGen.pyUpper t)
    | none => false)
  · refine ⟨?_, ?_, ?_⟩
    · simp [CardGen.generate_expiry, CardGen.months_to_add,
        CardGen.randint, hp]
      omega
    · intro hcond
      rw [hp] at hcond
      exact absurd hcond (by decide)
    · intro _
      refine ⟨36 + r % 25, by omega, by omega, ?_⟩
      simp [CardGen.generate_expiry, CardGen.months_to_add,
        CardGen.randint, hp]
  · refine ⟨?_, ?_, ?_⟩
    · simp [CardGen.generate_expiry, CardGen.months_to_add,
        CardGen.randint, hp]
      omega
    · intro _
      refine ⟨12 + r % 13, by omega, by omega, ?_⟩
      simp [CardGen.generate_expiry, CardGen.months_to_add,
        CardGen.randint, hp]
    · intro hcond
      rw [hp] at hcond
      exact absurd hcond (by decide)

/-- C9 witness: the bounds at a concrete prepaid type and a concrete absent
type. -/
theorem claim_C9_witness :
    (0 : Int) < CardGen.generate_expiry (some "PREPAID") 0 0 ∧
    (∃ m : Nat, 12 ≤ m ∧ m ≤ 24 ∧
      CardGen.generate_expiry (some "PREPAID") 0 0 = 0 + (m : Int) * 30) ∧
    (∃ m : Nat, 36 ≤ m ∧ m ≤ 60 ∧
      CardGen.generate_expiry none 5 7 = 5 + (m : Int) * 30) :=
  ⟨(claim_C9 (some "PREPAID") 0 0).1,
   (claim_C9 (some "PREPAID") 0 0).2.1 (by decide),
   (claim_C9 none 5 7).2.2 (by decide)⟩

/-- C2: for every partial card-number string, exactly one of the ten
candidate check digits 0..9 makes `luhn_checksum` hold on the extended
string, and consequently the check-digit search loop always finds a digit
(`findCheckDigit` is always `some`), so the final fallback of appending
`"0"` without a checksum is unreachable. -/
theorem claim_C2 (s : String) :
    (∃! c : Nat, c < 10 ∧ CardGen.luhn_checksum (s ++ toString c) = true) ∧
    (CardGen.findCheckDigit s).isSome = true := by
  have key := CardGen.luhn_append_digit_iff s
  have hex : ((10 - CardGen.luhnT s % 10) % 10) < 10 := by omega
  have hval : CardGen.luhn_checksum
      (s ++ toString ((10 - CardGen.luhnT s % 10) % 10)) = true := by
    rw [key _ hex]
    omega
  constructor
  · refine ⟨(10 - CardGen.luhnT s % 10) % 10, ⟨hex, hval⟩, ?_⟩
    rintro y ⟨hy, hyval⟩
    rw [key _ hy] at hyval
    omega
  · unfold CardGen.findCheckDigit
    rw [Option.isSome_map']
    rw [List.find?_isSome]
    exact ⟨(10 - CardGen.luhnT s % 10) % 10, List.mem_range.mpr hex, hval⟩

namespace RateLimiter

lemma rateLimits_requests_pos (action : String) :
    0 < (rateLimits action).requests := by
  unfold rateLimits defaultConfig
  repeat' split
  all_goals decide

lemma rateLimits_burst_pos (action : String) :
    0 < (rateLimits action).burst := by
  unfold rateLimits defaultConfig
  repeat' split
  all_goals decide

lemma memoryGetUsage_all (w tNow : Int) (reqs : List Int)
    (h : ∀ s ∈ reqs, tNow - s < w) :
    memoryGetUsage w tNow reqs = (reqs, reqs.length) := by
  unfold memoryGetUsage
  have hf : reqs.filter (fun t => tNow - w < t) = reqs :=
    List.filter_eq_self.mpr (fun s hs => by
      have := h s hs
      simp only [decide_eq_true_eq]
      omega)
  simp [hf]

lemma memoryGetUsage_expired (w tNow : Int) (reqs : List Int)
    (h : ∀ s ∈ reqs, s ≤ tNow - w) :
    memoryGetUsage w tNow reqs = ([], 0) := by
  unfold memoryGetUsage
  have hf : reqs.filter (fun t => tNow - w < t) = [] :=
    List.filter_eq_nil_iff.mpr (fun s hs => by
      have := h s hs
      simp only [decide_eq_true_eq]
      omega)
  simp [hf]

lemma memCheck_step (action : String) (done : List Int) (v : Nat) (t : Int)
    (hdone : ∀ s ∈ done, t - s < (rateLimits action).window) :
    memCheckRateLimit action ⟨done, v⟩ t =
      if done.length < (rateLimits action).requests then
        (.allowed (done.length + 1)
           (max 0 (((rateLimits action).requests : Int) - done.length - 1))
           (t - t % (rateLimits action).window + (rateLimits action).window),
         ⟨done ++ [t], v⟩)
      else
        (.denied (calculatePenaltyDelay v) (v + 1) false, ⟨done, v + 1⟩) := by
  simp only [memCheckRateLimit]
  rw [memoryGetUsage_all _ _ _ hdone]
  by_cases hlim : done.length < (rateLimits action).requests
  · rw [if_pos hlim, if_neg (by omega), if_neg
      (by have := rateLimits_burst_pos action; omega)]
  · rw [if_neg hlim, if_pos (by omega)]

lemma memRun_map_isAllowed (action : String) (ts : List Int) :
    ∀ (done : List Int) (v : Nat),
      (∀ s ∈ done, ∀ t ∈ ts, t - s < (rateLimits action).window) →
      (∀ s ∈ ts, ∀ t ∈ ts, t - s < (rateLimits action).window) →
      (memRun action ⟨done, v⟩ ts).1.map RateDecision.isAllowed =
        (List.range ts.length).map
          (fun k => decide (done.length + k < (rateLimits action).requests)) := by
  induction ts with
  | nil => intro done v _ _; rfl
  | cons t ts ih =>
    intro done v hcross hspan
    have hdone : ∀ s ∈ done, t - s < (rateLimits action).window :=
      fun s hs => hcross s hs t (by simp)
    have hspan' : ∀ s ∈ ts, ∀ t' ∈ ts, t' - s < (rateLimits action).window :=
      fun s hs t' ht' => hspan s (by simp [hs]) t' (by simp [ht'])
    simp only [memRun]
    rw [memCheck_step action done v t hdone]
    by_cases hlim : done.length < (rateLimits action).requests
    · rw [if_pos hlim]
      have hcross' : ∀ s ∈ done ++ [t], ∀ t' ∈ ts,
          t' - s < (rateLimits action).window := by
        intro s hs t' ht'
        rcases List.mem_append.mp hs with h1 | h2
        · exact hcross s h1 t' (by simp [ht'])
        · simp only [List.mem_singleton] at h2
          subst h2
          exact hspan s (by simp) t' (by simp [ht'])
      have ihh := ih (done ++ [t]) v hcross' hspan'
      simp only [List.map_cons, RateDecision.isAllowed, ihh,
        List.length_append, List.length_singleton, List.length_cons,
        List.length_nil, List.range_succ_eq_map, List.map_map]
      congr 1
      · simp [hlim]
      · refine List.map_congr_left (fun k hk => ?_)
        simp only [Function.comp_apply]
        exact decide_eq_decide.mpr (by omega)
    · rw [if_neg hlim]
      have ihh := ih done (v + 1)
        (fun s hs t' ht' => hcross s hs t' (by simp [ht'])) hspan'
      simp only [List.map_cons, RateDecision.isAllowed, ihh,
        List.length_cons, List.range_succ_eq_map, List.map_map]
      congr 1
      · simp [hlim]
      · refine List.map_congr_left (fun k hk => ?_)
        simp only [Function.comp_apply]
        exact decide_eq_decide.mpr (by omega)

end RateLimiter

/-- C3: on the in-memory path, for every action (with its configured limit
N = `requests` per window), a sequence of requests all lying within one
window of each other has exactly its first N calls admitted and every later
call — in particular the (N+1)th — denied; and any request arriving once a
full window has elapsed since every recorded request is admitted again. -/
theorem claim_C3 (action : String) :
    (∀ ts : List Int,
      (∀ s ∈ ts, ∀ t ∈ ts, t - s < (RateLimiter.rateLimits action).window) →
      (RateLimiter.memRun action .empty ts).1.map
          RateLimiter.RateDecision.isAllowed =
        (List.range ts.length).map
          (fun k => decide (k < (RateLimiter.rateLimits action).requests))) ∧
    (∀ (st : RateLimiter.MemState) (tNow : Int),
      (∀ s ∈ st.reqs, s ≤ tNow - (RateLimiter.rateLimits action).window) →
      (RateLimiter.memCheckRateLimit action st tNow).1.isAllowed = true) := by
  constructor
  · intro ts hspan
    have h := RateLimiter.memRun_map_isAllowed action ts [] 0
      (by simp) hspan
    simpa using h
  · intro st tNow h
    obtain ⟨reqs, v⟩ := st
    simp only [RateLimiter.memCheckRateLimit]
    rw [RateLimiter.memoryGetUsage_expired _ _ _ h]
    rw [if_neg (by have := RateLimiter.rateLimits_requests_pos action; omega),
      if_neg (by have := RateLimiter.rateLimits_burst_pos action; omega)]
    rfl

/-- C3 witness: 11 same-second requests under the `auth` limit of 10 per
300-second window — ten admissions, then denial — and an admission once the
single recorded request is a full window old. -/
theorem claim_C3_witness :
    ((RateLimiter.memRun "auth" .empty (List.replicate 11 1000)).1.map
        RateLimiter.RateDecision.isAllowed =
      (List.range (List.replicate 11 (1000 : Int)).length).map
        (fun k => decide (k < (RateLimiter.rateLimits "auth").requests))) ∧
    (RateLimiter.memCheckRateLimit "auth" ⟨[0], 3⟩ 300).1.isAllowed = true :=
  ⟨(claim_C3 "auth").1 (List.replicate 11 1000) (by decide),
   (claim_C3 "auth").2 ⟨[0], 3⟩ 300 (by decide)⟩

/-- C4: evaluation of the code at the failing input.  Twelve same-second
`auth` requests from a fresh identity: the 11th call is the first violation
and carries `retry_after = 960` (the 16× cap, because the penalty is
computed from the pre-increment violation count 0, which is missing from
the multiplier dict, so the `.get` default 16.0 applies), and the 12th call
— the second violation — carries `retry_after = 60`: successive violations
do not strictly increase but drop from the cap to the base delay. -/
theorem claim_C4 :
    ((RateLimiter.memRun "auth" .empty (List.replicate 12 1000)).1.getD 10
        (.allowed 0 0 0) = .denied 960 1 false) ∧
    ((RateLimiter.memRun "auth" .empty (List.replicate 12 1000)).1.getD 11
        (.allowed 0 0 0) = .denied 60 2 false) ∧
    RateLimiter.calculatePenaltyDelay 0 = 960 ∧
    RateLimiter.calculatePenaltyDelay 1 = 60 ∧
    RateLimiter.calculatePenaltyDelay 2 = 120 ∧
    RateLimiter.calculatePenaltyDelay 3 = 240 ∧
    RateLimiter.calculatePenaltyDelay 4 = 480 ∧
    RateLimiter.calculatePenaltyDelay 5 = 960 ∧
    RateLimiter.calculatePenaltyDelay 6 = 960 := by
  refine ⟨by decide, by decide, ?_, ?_, ?_, ?_, ?_, ?_, ?_⟩ <;> decide

/-- C10 counterexample: six requests at seconds 1000..1005 for the
`card_generation` action (limit 20 per 60 s, burst 5).  The shared-store
path denies the sixth request through the burst sub-window limit; the
in-process fallback admits it — the fallback does not have the same
semantics.  Additionally, the Redis violation counter reads as 0 once its
one-hour TTL has passed, while the memory path still uses a stale counter
at any later time. -/
theorem claim_C10_counterexample :
    ((RateLimiter.redisRun "card_generation" .empty
        [1000, 1001, 1002, 1003, 1004, 1005]).1.map
        RateLimiter.RateDecision.isAllowed =
      [true, true, true, true, true, false]) ∧
    ((RateLimiter.memRun "card_generation" .empty
        [1000, 1001, 1002, 1003, 1004, 1005]).1.map
        RateLimiter.RateDecision.isAllowed =
      [true, true, true, true, true, true]) ∧
    ((RateLimiter.redisRun "card_generation" .empty
        [1000, 1001, 1002, 1003, 1004, 1005]).1.getD 5
        (.allowed 0 0 0)).isBurstDenial = true ∧
    RateLimiter.redisViolationCount ⟨[], 5, 1000⟩ 2000 = 0 ∧
    (RateLimiter.memCheckRateLimit "card_generation"
        ⟨List.replicate 20 999999, 5⟩ 999999).1 =
      .denied (RateLimiter.calculatePenaltyDelay 5) 6 false := by
  refine ⟨by decide, by decide, by decide, by decide, by decide⟩

/-- C10 amended: the in-process fallback enforces the same window limit
(a request is admitted exactly when the windowed count is below the limit)
and never hard-fails, but it does not reproduce the rest of the shared-store
semantics: no denial of the fallback is ever a burst denial (the burst count
is fixed at 0 because the burst query exists only on the Redis path), and
the fallback's violation counter never expires — it never decreases,
whereas the Redis counter reads as 0 after its one-hour TTL. -/
theorem claim_C10 (action : String) (st : RateLimiter.MemState)
    (tNow : Int) :
    ((RateLimiter.memCheckRateLimit action st tNow).1.isBurstDenial =
      false) ∧
    ((RateLimiter.memCheckRateLimit action st tNow).1.isAllowed =
      decide ((RateLimiter.memoryGetUsage
          (RateLimiter.rateLimits action).window tNow st.reqs).2 <
        (RateLimiter.rateLimits action).requests)) ∧
    st.violations ≤
      (RateLimiter.memCheckRateLimit action st tNow).2.violations := by
  obtain ⟨reqs, v⟩ := st
  simp only [RateLimiter.memCheckRateLimit]
  by_cases hlim : (RateLimiter.memoryGetUsage
      (RateLimiter.rateLimits action).window tNow reqs).2 ≥
      (RateLimiter.rateLimits action).requests
  · rw [if_pos hlim]
    refine ⟨rfl, ?_, by simp⟩
    simp [RateLimiter.RateDecision.isAllowed, hlim, Nat.not_lt.mpr hlim]
  · rw [if_neg hlim,
      if_neg (by have := RateLimiter.rateLimits_burst_pos action; omega)]
    refine ⟨rfl, ?_, by simp⟩
    simp [RateLimiter.RateDecision.isAllowed, Nat.lt_of_not_le hlim]
